import Mathlib

/-!
# Transaction service (`src/transaction-service/main.go`)

A shallow embedding of the two HTTP handlers `createTransaction` and
`getTransaction` together with the helpers they call (`getCustomerByID`,
`getProductByID`, `saveTransactionToCache`).

The handlers talk to four collaborators that live outside the repository:
the Dapr client (`InvokeMethod`, `SaveState`, `GetState`), the SQL database
(`db.QueryRow(...).Scan(...)`), `encoding/json` and `float64` arithmetic.
They are fields of `Env`; the state of the outside world (remote services,
cache, database) is an arbitrary type `σ` that every collaborator call may
read and change.  Every handler returns the HTTP response, the list of
collaborator calls it issued (in order) and the final state of the world.

The Prometheus counters and histograms touched at the top of each handler do
not influence the response or the collaborator calls and are left out.

`json.Marshal` and `json.NewEncoder(w).Encode` fail on a `Transaction` that has no
JSON encoding (a `TotalPrice` of `+Inf`, `-Inf` or `NaN`).  Both handlers drop that
error: the cache then receives a nil payload and the response carries no body.
-/

namespace DaprGo

set_option maxRecDepth 8000

/-- Byte slices (`[]byte`) are modelled as strings. -/
abbrev Bytes := String

/-- The text of a Go `error` (`err.Error()`). -/
abbrev Err := String

/-- Values of `time.Time`; the zero value is `⟨0⟩`. -/
structure Time where
  nanos : Int
deriving DecidableEq, Repr

/-- Go struct `Transaction`; `F` is the type of `float64` values. -/
structure Transaction (F : Type) where
  ID : String
  CustomerID : String
  ProductID : String
  Qty : Int
  TotalPrice : F
  CreatedAt : Time
deriving DecidableEq, Repr

/-- Go struct `Customer` of the transaction service. -/
structure Customer where
  ID : String
  Name : String
deriving DecidableEq, Repr

/-- Go struct `Product` of the transaction service. -/
structure Product (F : Type) where
  ID : String
  Name : String
  Price : F
deriving DecidableEq, Repr

/-- The `float64` operations the handlers use: the conversion `float64(n)` of an
`int`, and multiplication. -/
structure FloatOps (F : Type) where
  ofInt : Int → F
  mul : F → F → F

/-- A collaborator call issued by a handler. -/
inductive Call (F : Type) where
  /-- Records `daprClient.InvokeMethod(ctx, appID, method, verb)`. -/
  | invoke (appID method verb : String)
  /-- Records the `INSERT INTO transactions ... RETURNING transaction_id, created_at` query. -/
  | dbInsert (customerID productID : String) (qty : Int) (totalPrice : F)
  /-- Records the `SELECT * FROM transactions WHERE transaction_id = $1` query. -/
  | dbSelect (id : String)
  /-- Records `daprClient.SaveState(ctx, store, key, data, nil)`. -/
  | saveState (store key : String) (data : Bytes)
  /-- Records `daprClient.GetState(ctx, store, key, nil)`. -/
  | getState (store key : String)
deriving DecidableEq, Repr

/-- The kind of a collaborator call, as the creation flow names them. -/
inductive CallKind where
  | customerLookup
  | productLookup
  | otherInvoke
  | durableInsert
  | durableRead
  | cacheWrite
  | cacheRead
deriving DecidableEq, Repr

/-- Classifies a call: an `InvokeMethod` is a customer or product lookup
according to the application it targets. -/
def Call.kind {F : Type} : Call F → CallKind
  | .invoke appID _ _ =>
    if appID = "customer-service" then .customerLookup
    else if appID = "product-service" then .productLookup
    else .otherInvoke
  | .dbInsert _ _ _ _ => .durableInsert
  | .dbSelect _ => .durableRead
  | .saveState _ _ _ => .cacheWrite
  | .getState _ _ => .cacheRead

/-- The collaborators of the transaction service.  `σ` is the state of the
outside world; each call returns its result and the new state. -/
structure Env (F σ : Type) where
  /-- The `float64` arithmetic. -/
  float64 : FloatOps F
  /-- Models `daprClient.InvokeMethod(ctx, appID, method, verb)`. -/
  InvokeMethod : String → String → String → σ → Except Err Bytes × σ
  /-- Models `daprClient.SaveState(ctx, store, key, data, nil)`; `none` is a nil error. -/
  SaveState : String → String → Bytes → σ → Option Err × σ
  /-- Models `daprClient.GetState(ctx, store, key, nil)`; on success the result is
  `item.Value`, with `none` for a nil slice. -/
  GetState : String → String → σ → Except Err (Option Bytes) × σ
  /-- Models the `INSERT ... RETURNING transaction_id, created_at` query followed by
  `Scan(&txn.ID, &txn.CreatedAt)`. -/
  insertTransaction : String → String → Int → F → σ → Except Err (String × Time) × σ
  /-- Models the `SELECT * FROM transactions WHERE transaction_id = $1` query followed
  by `Scan` into the six fields of a `Transaction`. -/
  selectTransaction : String → σ → Except Err (Transaction F) × σ
  /-- Models `json.Unmarshal(resp, &customer)` into a zero `Customer`. -/
  unmarshalCustomer : Bytes → Except Err Customer
  /-- Models `json.Unmarshal(resp, &product)` into a zero `Product`. -/
  unmarshalProduct : Bytes → Except Err (Product F)
  /-- Models `json.Unmarshal(data, &txn)` into a zero `Transaction`: the value left
  in `txn` (fields the input does not set keep their zero value) and the error. -/
  unmarshalTransaction : Bytes → Transaction F × Option Err
  /-- Models `json.Marshal(transaction)`: the encoding, or the error for a value that
  has no JSON encoding.  `json.NewEncoder(w).Encode` writes this encoding and a
  newline, and writes nothing when there is none. -/
  marshalTransaction : Transaction F → Except Err Bytes
  /-- A `Transaction` that `json.Unmarshal` left in a zero variable has a JSON encoding:
  JSON text holds no infinite or `NaN` number and no time outside the years 0 to 9999. -/
  unmarshal_marshals : ∀ data : Bytes, ∃ out : Bytes,
    marshalTransaction (unmarshalTransaction data).1 = .ok out

deriving instance DecidableEq for Except

/-- The body written to the `http.ResponseWriter`. -/
inductive RespBody (F : Type) where
  /-- Plain text written by `http.Error`. -/
  | text (msg : String)
  /-- Output of `json.NewEncoder(w).Encode(t)` when `t` has a JSON encoding. -/
  | json (t : Transaction F)
  /-- Nothing written: `json.NewEncoder(w).Encode(t)` failed and its error was dropped. -/
  | empty
deriving DecidableEq, Repr

/-- An HTTP response: status code and body. -/
structure Response (F : Type) where
  status : Nat
  body : RespBody F
deriving DecidableEq, Repr

/-- What running a handler produces: the response, the collaborator calls it
issued in order, and the state of the world afterwards. -/
structure Outcome (F σ : Type) where
  resp : Response F
  calls : List (Call F)
  world : σ

def StatusOK : Nat := 200
def StatusCreated : Nat := 201
def StatusBadRequest : Nat := 400
def StatusNotFound : Nat := 404
def StatusInternalServerError : Nat := 500

/-- Models `http.Error(w, msg, code)`: status `code`, body `msg` and a newline. -/
def httpError {F : Type} (msg : String) (code : Nat) : Response F :=
  ⟨code, .text (msg ++ "\n")⟩

/-- The storename variable of the service. -/
def storename : String := "statestore"

/-- Models `fmt.Sprintf("%d", s)` for a string argument: the verb `%d` does not
apply to strings, so `fmt` prints `%!d(string=` followed by the string and `)`. -/
def sprintfDString (s : String) : String := "%!d(string=" ++ s ++ ")"

/-- Models `fmt.Sprintf("transaction-%d", id)` with `id` a string, as written in
`saveTransactionToCache` and in `getTransaction`. -/
def cacheKey (id : String) : String := "transaction-" ++ sprintfDString id

/-- Go function `getCustomerByID`: the result, the call issued and the new world. -/
def getCustomerByID {F σ : Type} (env : Env F σ) (customerID : String) (w : σ) :
    Except Err Customer × Call F × σ :=
  let c : Call F := .invoke "customer-service" ("customer/" ++ customerID) "GET"
  match env.InvokeMethod "customer-service" ("customer/" ++ customerID) "GET" w with
  | (.error e, w1) => (.error e, c, w1)
  | (.ok resp, w1) =>
    match env.unmarshalCustomer resp with
    | .error e => (.error e, c, w1)
    | .ok customer => (.ok customer, c, w1)

/-- Go function `getProductByID`: the result, the call issued and the new world. -/
def getProductByID {F σ : Type} (env : Env F σ) (productID : String) (w : σ) :
    Except Err (Product F) × Call F × σ :=
  let c : Call F := .invoke "product-service" ("product/" ++ productID) "GET"
  match env.InvokeMethod "product-service" ("product/" ++ productID) "GET" w with
  | (.error e, w1) => (.error e, c, w1)
  | (.ok resp, w1) =>
    match env.unmarshalProduct resp with
    | .error e => (.error e, c, w1)
    | .ok product => (.ok product, c, w1)

/-- Models `data, _ := json.Marshal(transaction)`: the encoding, or a nil slice (the empty
byte string) when `json.Marshal` fails. -/
def cachePayload {F σ : Type} (env : Env F σ) (transaction : Transaction F) : Bytes :=
  match env.marshalTransaction transaction with
  | .ok data => data
  | .error _ => ""

/-- Models `json.NewEncoder(w).Encode(t)` with its error dropped: the JSON body, or no
body when `t` has no JSON encoding. -/
def encodeBody {F σ : Type} (env : Env F σ) (t : Transaction F) : RespBody F :=
  match env.marshalTransaction t with
  | .ok _ => .json t
  | .error _ => .empty

/-- Go function `saveTransactionToCache`: the error, the call issued and the new world. -/
def saveTransactionToCache {F σ : Type} (env : Env F σ) (transaction : Transaction F) (w : σ) :
    Option Err × Call F × σ :=
  let data := cachePayload env transaction
  let key := cacheKey transaction.ID
  let r := env.SaveState "statestore" key data w
  (r.1, .saveState "statestore" key data, r.2)

/-- Go function `createTransaction`, on the request body `body` in world `w`. -/
def createTransaction {F σ : Type} (env : Env F σ) (body : Bytes) (w : σ) : Outcome F σ :=
  let txn := (env.unmarshalTransaction body).1
  match getCustomerByID env txn.CustomerID w with
  | (.error e, c1, w1) => ⟨httpError ("Customer not found" ++ e) StatusBadRequest, [c1], w1⟩
  | (.ok _, c1, w1) =>
    match getProductByID env txn.ProductID w1 with
    | (.error e, c2, w2) =>
      ⟨httpError ("Product not found" ++ e) StatusBadRequest, [c1, c2], w2⟩
    | (.ok product, c2, w2) =>
      let txn := { txn with TotalPrice := env.float64.mul (env.float64.ofInt txn.Qty) product.Price }
      let c3 : Call F := .dbInsert txn.CustomerID txn.ProductID txn.Qty txn.TotalPrice
      match env.insertTransaction txn.CustomerID txn.ProductID txn.Qty txn.TotalPrice w2 with
      | (.error e, w3) =>
        ⟨httpError ("Failed to create transaction" ++ e) StatusInternalServerError,
          [c1, c2, c3], w3⟩
      | (.ok (id, createdAt), w3) =>
        let txn := { txn with ID := id, CreatedAt := createdAt }
        match saveTransactionToCache env txn w3 with
        | (some _, c4, w4) =>
          ⟨httpError "Failed to cache transaction" StatusInternalServerError,
            [c1, c2, c3, c4], w4⟩
        | (none, c4, w4) => ⟨⟨StatusCreated, encodeBody env txn⟩, [c1, c2, c3, c4], w4⟩

/-- The Go condition `item.Value != nil && len(item.Value) > 0` of `getTransaction`. -/
def itemHasValue (item : Option Bytes) : Bool :=
  match item with
  | some value => decide (0 < value.length)
  | none => false

/-- Go function `getTransaction`, for the path variable `id` in world `w`.  Where the
handler encodes a body without calling `WriteHeader`, `net/http` answers 200. -/
def getTransaction {F σ : Type} (env : Env F σ) (id : String) (w : σ) : Outcome F σ :=
  if id = "" then ⟨httpError "Missing id parameter" StatusBadRequest, [], w⟩
  else
    let c1 : Call F := .getState storename (cacheKey id)
    match env.GetState storename (cacheKey id) w with
    | (.error e, w1) => ⟨httpError ("Transaction not found" ++ e) StatusNotFound, [c1], w1⟩
    | (.ok item, w1) =>
      if itemHasValue item then
        ⟨⟨StatusOK, encodeBody env (env.unmarshalTransaction (item.getD "")).1⟩, [c1], w1⟩
      else
        let c2 : Call F := .dbSelect id
        match env.selectTransaction id w1 with
        | (.error _, w2) => ⟨httpError "Product not found" StatusNotFound, [c1, c2], w2⟩
        | (.ok trx, w2) =>
          match saveTransactionToCache env trx w2 with
          | (some _, c3, w3) =>
            ⟨httpError "Failed to cache transaction" StatusInternalServerError, [c1, c2, c3], w3⟩
          | (none, c3, w3) => ⟨⟨StatusOK, encodeBody env trx⟩, [c1, c2, c3], w3⟩

/-! ## The steps of one creation request

The results the collaborators give during one run of `createTransaction`, each
step running in the world the previous one left. -/

/-- The transaction the request body decodes to (`json.Unmarshal(body, &txn)`). -/
def requestTxn {F σ : Type} (env : Env F σ) (body : Bytes) : Transaction F :=
  (env.unmarshalTransaction body).1

/-- The customer lookup of a creation request. -/
def customerStep {F σ : Type} (env : Env F σ) (body : Bytes) (w : σ) :
    Except Err Customer × Call F × σ :=
  getCustomerByID env (requestTxn env body).CustomerID w

/-- The product lookup of a creation request, in the world the customer lookup left. -/
def productStep {F σ : Type} (env : Env F σ) (body : Bytes) (w : σ) :
    Except Err (Product F) × Call F × σ :=
  getProductByID env (requestTxn env body).ProductID (customerStep env body w).2.2

/-- The request transaction after `txn.TotalPrice = float64(txn.Qty) * product.Price`. -/
def pricedTxn {F σ : Type} (env : Env F σ) (body : Bytes) (product : Product F) :
    Transaction F :=
  { requestTxn env body with
    TotalPrice := env.float64.mul (env.float64.ofInt (requestTxn env body).Qty) product.Price }

/-- The durable insert of a creation request whose product lookup returned `product`,
in the world the product lookup left. -/
def insertStep {F σ : Type} (env : Env F σ) (body : Bytes) (w : σ) (product : Product F) :
    Except Err (String × Time) × σ :=
  env.insertTransaction (requestTxn env body).CustomerID (requestTxn env body).ProductID
    (requestTxn env body).Qty (pricedTxn env body product).TotalPrice (productStep env body w).2.2

/-- The call recording the durable insert of a creation request. -/
def insertCall {F σ : Type} (env : Env F σ) (body : Bytes) (product : Product F) : Call F :=
  .dbInsert (requestTxn env body).CustomerID (requestTxn env body).ProductID
    (requestTxn env body).Qty (pricedTxn env body product).TotalPrice

/-- The priced request transaction after `Scan(&txn.ID, &txn.CreatedAt)`. -/
def persistedTxn {F σ : Type} (env : Env F σ) (body : Bytes) (product : Product F)
    (id : String) (createdAt : Time) : Transaction F :=
  { pricedTxn env body product with ID := id, CreatedAt := createdAt }

/-- Whether a fallible step returned a nil error. -/
def succeeded {ε α : Type} : Except ε α → Bool
  | .ok _ => true
  | .error _ => false

/-- The four calls of the creation flow, in order. -/
def creationFlow : List CallKind :=
  [.customerLookup, .productLookup, .durableInsert, .cacheWrite]

/-- The kinds of the calls in an outcome. -/
def Outcome.kinds {F σ : Type} (o : Outcome F σ) : List CallKind :=
  o.calls.map Call.kind

/-! ## Assumptions on the libraries, used where a claim names them -/

/-- The JSON encoding of `t` is a non-empty byte string that decodes back to `t`. -/
def JsonFaithful {F σ : Type} (env : Env F σ) (t : Transaction F) : Prop :=
  ∃ data : Bytes, env.marshalTransaction t = .ok data ∧ 0 < data.length ∧
    (env.unmarshalTransaction data).1 = t

/-- The cache returns what was last set under a key: a `GetState` that directly follows
a successful `SaveState` of `data` under the same store and key returns `data` and
leaves the world as it is. -/
def CacheReturnsLastSet {F σ : Type} (env : Env F σ) : Prop :=
  ∀ (store key : String) (data : Bytes) (w : σ),
    (env.SaveState store key data w).1 = none →
      env.GetState store key (env.SaveState store key data w).2 =
        (.ok (some data), (env.SaveState store key data w).2)

/-! ## A concrete world

An in-memory cache and table, one known customer `c1`, a product `p1` priced 10 and a
product `p2` priced 1e308.  Prices are integer-valued `float64` values with overflow. -/

/-- Integer-valued `float64` values and the three values without a JSON encoding.
`finite n` stands for the `float64` nearest to `n`, which is `n` itself up to 2^53. -/
inductive DemoFloat where
  | finite (n : Int)
  | posInf
  | negInf
  | nan
deriving DecidableEq, Repr

/-- The largest finite `float64`, 2^1024 - 2^971 (about 1.797e308). -/
def DemoFloat.maxFinite : Int :=
  Int.ofNat ((2 ^ 53 - 1) * (2 ^ 250 * 2 ^ 250 * 2 ^ 250 * 2 ^ 221))

/-- The value `1e308` as an integer. -/
def DemoFloat.e308 : Int := Int.ofNat (10 ^ 154 * 10 ^ 154)

/-- Multiplication of `float64` values: a finite product beyond the largest finite
`float64` overflows to an infinity, and zero times an infinity is `NaN`. -/
def DemoFloat.mul : DemoFloat → DemoFloat → DemoFloat
  | .finite a, .finite b =>
    if DemoFloat.maxFinite < a * b then .posInf
    else if a * b < -DemoFloat.maxFinite then .negInf
    else .finite (a * b)
  | .finite a, .posInf => if 0 < a then .posInf else if a < 0 then .negInf else .nan
  | .finite a, .negInf => if 0 < a then .negInf else if a < 0 then .posInf else .nan
  | .posInf, .finite b => if 0 < b then .posInf else if b < 0 then .negInf else .nan
  | .negInf, .finite b => if 0 < b then .negInf else if b < 0 then .posInf else .nan
  | .posInf, .posInf => .posInf
  | .negInf, .negInf => .posInf
  | .posInf, .negInf => .negInf
  | .negInf, .posInf => .negInf
  | .nan, _ => .nan
  | _, .nan => .nan

/-- The state of the concrete world. -/
structure DemoWorld where
  /-- The cache entries, newest first. -/
  cache : List (String × Bytes)
  /-- The rows of table `transactions`. -/
  rows : List (Transaction DemoFloat)
  /-- The id the table assigns to the next row. -/
  nextID : String
  /-- The value of `NOW()`. -/
  now : Time
  /-- Whether the cache store answers. -/
  cacheUp : Bool
  /-- Whether the database answers. -/
  dbUp : Bool
deriving DecidableEq, Repr

/-- Request body `{"customer_id":"c1","product_id":"p1","qty":3}`. -/
def bodyOrder : Bytes := "\x7b\"customer_id\":\"c1\",\"product_id\":\"p1\",\"qty\":3\x7d"

/-- Request body `{"customer_id":"c9","product_id":"p1","qty":3}`, customer unknown. -/
def bodyUnknownCustomer : Bytes :=
  "\x7b\"customer_id\":\"c9\",\"product_id\":\"p1\",\"qty\":3\x7d"

/-- Request body `{"customer_id":"c1","product_id":"p9","qty":3}`, product unknown. -/
def bodyUnknownProduct : Bytes :=
  "\x7b\"customer_id\":\"c1\",\"product_id\":\"p9\",\"qty\":3\x7d"

/-- Request body `{"customer_id":"c1","product_id":"p1"}`, without `qty`. -/
def bodyNoQty : Bytes := "\x7b\"customer_id\":\"c1\",\"product_id\":\"p1\"\x7d"

/-- Request body `{"customer_id":"c1","product_id":"p1","qty":-2}`. -/
def bodyNegativeQty : Bytes :=
  "\x7b\"customer_id\":\"c1\",\"product_id\":\"p1\",\"qty\":-2\x7d"

/-- Request body that also supplies `transaction_id`, `total_price` and `created_at`:
`{"transaction_id":"77","customer_id":"c1","product_id":"p1","qty":3,"total_price":999,
"created_at":"0001-01-01T00:00:00.000000005Z"}`. -/
def bodyOverride : Bytes :=
  "\x7b\"transaction_id\":\"77\",\"customer_id\":\"c1\",\"product_id\":\"p1\",\"qty\":3," ++
  "\"total_price\":999,\"created_at\":\"0001-01-01T00:00:00.000000005Z\"\x7d"

/-- Request body `{"customer_id":"c1","product_id":"p2","qty":100}`: 100 units of the
product priced 1e308. -/
def bodyOverflow : Bytes :=
  "\x7b\"customer_id\":\"c1\",\"product_id\":\"p2\",\"qty\":100\x7d"

/-- The row the concrete table holds after `bodyOrder` was created with id `1`. -/
def demoTxn : Transaction DemoFloat := ⟨"1", "c1", "p1", 3, .finite 30, ⟨1000⟩⟩

/-- The JSON encoding of `demoTxn`:
`{"transaction_id":"1","customer_id":"c1","product_id":"p1","qty":3,"total_price":30,
"created_at":"0001-01-01T00:00:00.000001Z"}`. -/
def demoPayload : Bytes :=
  "\x7b\"transaction_id\":\"1\",\"customer_id\":\"c1\",\"product_id\":\"p1\",\"qty\":3," ++
  "\"total_price\":30,\"created_at\":\"0001-01-01T00:00:00.000001Z\"\x7d"

/-- The row created from `bodyNoQty`. -/
def demoTxnNoQty : Transaction DemoFloat := ⟨"1", "c1", "p1", 0, .finite 0, ⟨1000⟩⟩

/-- The JSON encoding of `demoTxnNoQty`. -/
def demoPayloadNoQty : Bytes :=
  "\x7b\"transaction_id\":\"1\",\"customer_id\":\"c1\",\"product_id\":\"p1\",\"qty\":0," ++
  "\"total_price\":0,\"created_at\":\"0001-01-01T00:00:00.000001Z\"\x7d"

/-- The row created from `bodyNegativeQty`. -/
def demoTxnNegativeQty : Transaction DemoFloat :=
  ⟨"1", "c1", "p1", -2, .finite (-20), ⟨1000⟩⟩

/-- The row created from `bodyOverflow`: 100 * 1e308 overflows to `+Inf`. -/
def demoTxnOverflow : Transaction DemoFloat := ⟨"1", "c1", "p2", 100, .posInf, ⟨1000⟩⟩

/-- The JSON encoding of `demoTxnNegativeQty`. -/
def demoPayloadNegativeQty : Bytes :=
  "\x7b\"transaction_id\":\"1\",\"customer_id\":\"c1\",\"product_id\":\"p1\",\"qty\":-2," ++
  "\"total_price\":-20,\"created_at\":\"0001-01-01T00:00:00.000001Z\"\x7d"

/-- The fields the decoder of the concrete world reads from the byte strings above, the
total as the integer written in the text; any other input is rejected and leaves the zero
`Transaction`. -/
def demoDecode (data : Bytes) : Transaction Int × Option Err :=
  if data = bodyOrder then (⟨"", "c1", "p1", 3, 0, ⟨0⟩⟩, none)
  else if data = bodyUnknownCustomer then (⟨"", "c9", "p1", 3, 0, ⟨0⟩⟩, none)
  else if data = bodyUnknownProduct then (⟨"", "c1", "p9", 3, 0, ⟨0⟩⟩, none)
  else if data = bodyNoQty then (⟨"", "c1", "p1", 0, 0, ⟨0⟩⟩, none)
  else if data = bodyNegativeQty then (⟨"", "c1", "p1", -2, 0, ⟨0⟩⟩, none)
  else if data = bodyOverride then (⟨"77", "c1", "p1", 3, 999, ⟨5⟩⟩, none)
  else if data = bodyOverflow then (⟨"", "c1", "p2", 100, 0, ⟨0⟩⟩, none)
  else if data = demoPayload then (⟨"1", "c1", "p1", 3, 30, ⟨1000⟩⟩, none)
  else if data = demoPayloadNoQty then (⟨"1", "c1", "p1", 0, 0, ⟨1000⟩⟩, none)
  else if data = demoPayloadNegativeQty then (⟨"1", "c1", "p1", -2, -20, ⟨1000⟩⟩, none)
  else (⟨"", "", "", 0, 0, ⟨0⟩⟩, some "invalid character")

/-- The decoder of the concrete world: a number read from JSON text is a finite
`float64`. -/
def demoUnmarshalTransaction (data : Bytes) : Transaction DemoFloat × Option Err :=
  (⟨(demoDecode data).1.ID, (demoDecode data).1.CustomerID, (demoDecode data).1.ProductID,
      (demoDecode data).1.Qty, .finite (demoDecode data).1.TotalPrice,
      (demoDecode data).1.CreatedAt⟩,
    (demoDecode data).2)

/-- The encoding the concrete world gives a `Transaction` with a finite total: the three
rows above have the encodings above, any other `Transaction` the placeholder `{}`. -/
def demoEncoding (t : Transaction DemoFloat) : Bytes :=
  if t = demoTxn then demoPayload
  else if t = demoTxnNoQty then demoPayloadNoQty
  else if t = demoTxnNegativeQty then demoPayloadNegativeQty
  else "\x7b\x7d"

/-- The encoder of the concrete world: a `Transaction` whose total is an infinity or `NaN`
has no encoding. -/
def demoMarshalTransaction (t : Transaction DemoFloat) : Except Err Bytes :=
  match t.TotalPrice with
  | .finite _ => .ok (demoEncoding t)
  | _ => .error "json: unsupported value"

/-- The collaborators of the concrete world. -/
def demoEnv : Env DemoFloat DemoWorld where
  float64 := ⟨fun n => .finite n, DemoFloat.mul⟩
  InvokeMethod := fun appID method _ w =>
    if appID = "customer-service" ∧ method = "customer/c1" then (.ok "customer c1", w)
    else if appID = "product-service" ∧ method = "product/p1" then (.ok "product p1", w)
    else if appID = "product-service" ∧ method = "product/p2" then (.ok "product p2", w)
    else (.error "not found", w)
  SaveState := fun _ key data w =>
    if w.cacheUp then (none, { w with cache := (key, data) :: w.cache })
    else (some "connection refused", w)
  GetState := fun _ key w =>
    if w.cacheUp then (.ok (w.cache.lookup key), w) else (.error "connection refused", w)
  insertTransaction := fun customerID productID qty totalPrice w =>
    if w.dbUp then
      (.ok (w.nextID, w.now),
        { w with rows := w.rows ++ [⟨w.nextID, customerID, productID, qty, totalPrice, w.now⟩] })
    else (.error "connection refused", w)
  selectTransaction := fun id w =>
    if w.dbUp then
      match w.rows.find? (fun r => r.ID = id) with
      | some r => (.ok r, w)
      | none => (.error "sql: no rows in result set", w)
    else (.error "connection refused", w)
  unmarshalCustomer := fun resp =>
    if resp = "customer c1" then .ok ⟨"c1", "Ana"⟩ else .error "invalid character"
  unmarshalProduct := fun resp =>
    if resp = "product p1" then .ok ⟨"p1", "Pen", .finite 10⟩
    else if resp = "product p2" then .ok ⟨"p2", "Ingot", .finite DemoFloat.e308⟩
    else .error "invalid character"
  unmarshalTransaction := demoUnmarshalTransaction
  marshalTransaction := demoMarshalTransaction
  unmarshal_marshals := fun data => ⟨demoEncoding (demoUnmarshalTransaction data).1, rfl⟩

/-- An empty cache and table, both reachable; the next row gets id `1`. -/
def demoWorld : DemoWorld := ⟨[], [], "1", ⟨1000⟩, true, true⟩

/-- The concrete world after the row `demoTxn` was inserted, before it is cached. -/
def demoWorldInserted : DemoWorld := { demoWorld with rows := [demoTxn] }

/-- The concrete world after the row `demoTxnOverflow` was inserted. -/
def demoWorldOverflowInserted : DemoWorld := { demoWorld with rows := [demoTxnOverflow] }

/-- The concrete world with the cache store unreachable. -/
def demoWorldCacheDown : DemoWorld := { demoWorld with cacheUp := false }

/-- The concrete world with the database unreachable. -/
def demoWorldDbDown : DemoWorld := { demoWorld with dbUp := false }

/-- The concrete world holding row `demoTxn` in the table and nothing in the cache. -/
def demoWorldStored : DemoWorld := { demoWorld with rows := [demoTxn], nextID := "2" }

/-- The concrete world holding row `demoTxn` in the table and in the cache. -/
def demoWorldCached : DemoWorld :=
  { demoWorldStored with cache := [(cacheKey "1", demoPayload)] }

/-! ## Helper lemmas: the call each helper issues, and the outcome of each path -/

section Lemmas

variable {F σ : Type}

theorem getCustomerByID_call (env : Env F σ) (customerID : String) (w : σ) :
    (getCustomerByID env customerID w).2.1 =
      .invoke "customer-service" ("customer/" ++ customerID) "GET" := by
  unfold getCustomerByID
  rcases env.InvokeMethod "customer-service" ("customer/" ++ customerID) "GET" w with ⟨r, w1⟩
  cases r with
  | error e => rfl
  | ok resp => dsimp only; cases env.unmarshalCustomer resp <;> rfl

theorem getProductByID_call (env : Env F σ) (productID : String) (w : σ) :
    (getProductByID env productID w).2.1 =
      .invoke "product-service" ("product/" ++ productID) "GET" := by
  unfold getProductByID
  rcases env.InvokeMethod "product-service" ("product/" ++ productID) "GET" w with ⟨r, w1⟩
  cases r with
  | error e => rfl
  | ok resp => dsimp only; cases env.unmarshalProduct resp <;> rfl

theorem customerStep_kind (env : Env F σ) (body : Bytes) (w : σ) :
    (customerStep env body w).2.1.kind = .customerLookup := by
  unfold customerStep
  rw [getCustomerByID_call]
  rfl

theorem productStep_kind (env : Env F σ) (body : Bytes) (w : σ) :
    (productStep env body w).2.1.kind = .productLookup := by
  unfold productStep
  rw [getProductByID_call]
  rfl

theorem createTransaction_customer_error (env : Env F σ) (body : Bytes) (w : σ) (e : Err)
    (hc : (customerStep env body w).1 = .error e) :
    createTransaction env body w =
      ⟨httpError ("Customer not found" ++ e) StatusBadRequest,
        [(customerStep env body w).2.1], (customerStep env body w).2.2⟩ := by
  rcases hcs : customerStep env body w with ⟨rc, c1, w1⟩
  rw [hcs] at hc
  dsimp only at hc
  subst hc
  simp only [customerStep, requestTxn] at hcs
  simp only [createTransaction, hcs]

theorem createTransaction_product_error (env : Env F σ) (body : Bytes) (w : σ)
    (customer : Customer) (e : Err)
    (hc : (customerStep env body w).1 = .ok customer)
    (hp : (productStep env body w).1 = .error e) :
    createTransaction env body w =
      ⟨httpError ("Product not found" ++ e) StatusBadRequest,
        [(customerStep env body w).2.1, (productStep env body w).2.1],
        (productStep env body w).2.2⟩ := by
  rcases hps : productStep env body w with ⟨rp, c2, w2⟩
  rw [hps] at hp
  rcases hcs : customerStep env body w with ⟨rc, c1, w1⟩
  rw [hcs] at hc
  dsimp only at hc hp
  subst hc hp
  simp only [productStep, hcs] at hps
  simp only [customerStep, requestTxn] at hcs hps
  simp only [createTransaction, hcs, hps]

theorem createTransaction_insert_error (env : Env F σ) (body : Bytes) (w : σ)
    (customer : Customer) (product : Product F) (e : Err) (w3 : σ)
    (hc : (customerStep env body w).1 = .ok customer)
    (hp : (productStep env body w).1 = .ok product)
    (hi : insertStep env body w product = (.error e, w3)) :
    createTransaction env body w =
      ⟨httpError ("Failed to create transaction" ++ e) StatusInternalServerError,
        [(customerStep env body w).2.1, (productStep env body w).2.1,
          insertCall env body product], w3⟩ := by
  rcases hps : productStep env body w with ⟨rp, c2, w2⟩
  rw [hps] at hp
  rcases hcs : customerStep env body w with ⟨rc, c1, w1⟩
  rw [hcs] at hc
  dsimp only at hc hp
  subst hc hp
  simp only [insertStep, hps, pricedTxn] at hi
  simp only [productStep, hcs] at hps
  simp only [customerStep, requestTxn] at hcs hps hi
  simp only [createTransaction, hcs, hps, hi, insertCall, pricedTxn, requestTxn]

theorem createTransaction_cache_error (env : Env F σ) (body : Bytes) (w : σ)
    (customer : Customer) (product : Product F) (id : String) (createdAt : Time) (w3 : σ)
    (e : Err)
    (hc : (customerStep env body w).1 = .ok customer)
    (hp : (productStep env body w).1 = .ok product)
    (hi : insertStep env body w product = (.ok (id, createdAt), w3))
    (hs : (saveTransactionToCache env (persistedTxn env body product id createdAt) w3).1
      = some e) :
    createTransaction env body w =
      ⟨httpError "Failed to cache transaction" StatusInternalServerError,
        [(customerStep env body w).2.1, (productStep env body w).2.1,
          insertCall env body product,
          (saveTransactionToCache env (persistedTxn env body product id createdAt) w3).2.1],
        (saveTransactionToCache env (persistedTxn env body product id createdAt) w3).2.2⟩ := by
  rcases hps : productStep env body w with ⟨rp, c2, w2⟩
  rw [hps] at hp
  rcases hcs : customerStep env body w with ⟨rc, c1, w1⟩
  rw [hcs] at hc
  dsimp only at hc hp
  subst hc hp
  rcases hss : saveTransactionToCache env (persistedTxn env body product id createdAt) w3
    with ⟨rs, c4, w4⟩
  rw [hss] at hs
  dsimp only at hs
  subst hs
  simp only [insertStep, hps, pricedTxn] at hi
  simp only [productStep, hcs] at hps
  simp only [persistedTxn, pricedTxn] at hss
  simp only [customerStep, requestTxn] at hcs hps hi hss
  simp only [createTransaction, hcs, hps, hi, hss, insertCall, pricedTxn, requestTxn]

theorem createTransaction_created (env : Env F σ) (body : Bytes) (w : σ)
    (customer : Customer) (product : Product F) (id : String) (createdAt : Time) (w3 : σ)
    (hc : (customerStep env body w).1 = .ok customer)
    (hp : (productStep env body w).1 = .ok product)
    (hi : insertStep env body w product = (.ok (id, createdAt), w3))
    (hs : (saveTransactionToCache env (persistedTxn env body product id createdAt) w3).1
      = none) :
    createTransaction env body w =
      ⟨⟨StatusCreated, encodeBody env (persistedTxn env body product id createdAt)⟩,
        [(customerStep env body w).2.1, (productStep env body w).2.1,
          insertCall env body product,
          (saveTransactionToCache env (persistedTxn env body product id createdAt) w3).2.1],
        (saveTransactionToCache env (persistedTxn env body product id createdAt) w3).2.2⟩ := by
  rcases hps : productStep env body w with ⟨rp, c2, w2⟩
  rw [hps] at hp
  rcases hcs : customerStep env body w with ⟨rc, c1, w1⟩
  rw [hcs] at hc
  dsimp only at hc hp
  subst hc hp
  rcases hss : saveTransactionToCache env (persistedTxn env body product id createdAt) w3
    with ⟨rs, c4, w4⟩
  rw [hss] at hs
  dsimp only at hs
  subst hs
  simp only [insertStep, hps, pricedTxn] at hi
  simp only [productStep, hcs] at hps
  simp only [persistedTxn, pricedTxn] at hss
  simp only [customerStep, requestTxn] at hcs hps hi hss
  simp only [createTransaction, hcs, hps, hi, hss, insertCall, pricedTxn, requestTxn,
    persistedTxn]

theorem saveTransactionToCache_call (env : Env F σ) (t : Transaction F) (w : σ) :
    (saveTransactionToCache env t w).2.1 =
      .saveState "statestore" (cacheKey t.ID) (cachePayload env t) := rfl

theorem saveTransactionToCache_eq (env : Env F σ) (t : Transaction F) (w : σ) :
    saveTransactionToCache env t w =
      ((env.SaveState "statestore" (cacheKey t.ID) (cachePayload env t) w).1,
        .saveState "statestore" (cacheKey t.ID) (cachePayload env t),
        (env.SaveState "statestore" (cacheKey t.ID) (cachePayload env t) w).2) := rfl

theorem getTransaction_missing_id (env : Env F σ) (w : σ) :
    getTransaction env "" w = ⟨httpError "Missing id parameter" StatusBadRequest, [], w⟩ := by
  simp only [getTransaction, if_true]

theorem getTransaction_cache_error (env : Env F σ) (id : String) (w w1 : σ) (e : Err)
    (hid : id ≠ "")
    (hg : env.GetState storename (cacheKey id) w = (.error e, w1)) :
    getTransaction env id w =
      ⟨httpError ("Transaction not found" ++ e) StatusNotFound,
        [.getState storename (cacheKey id)], w1⟩ := by
  simp only [getTransaction, if_neg hid, hg]

theorem getTransaction_cache_hit (env : Env F σ) (id : String) (w w1 : σ)
    (item : Option Bytes) (hid : id ≠ "")
    (hg : env.GetState storename (cacheKey id) w = (.ok item, w1))
    (hv : itemHasValue item = true) :
    getTransaction env id w =
      ⟨⟨StatusOK, encodeBody env (env.unmarshalTransaction (item.getD "")).1⟩,
        [.getState storename (cacheKey id)], w1⟩ := by
  simp only [getTransaction, if_neg hid, hg, hv, if_true]

theorem getTransaction_select_error (env : Env F σ) (id : String) (w w1 w2 : σ)
    (item : Option Bytes) (e : Err) (hid : id ≠ "")
    (hg : env.GetState storename (cacheKey id) w = (.ok item, w1))
    (hv : itemHasValue item = false)
    (hq : env.selectTransaction id w1 = (.error e, w2)) :
    getTransaction env id w =
      ⟨httpError "Product not found" StatusNotFound,
        [.getState storename (cacheKey id), .dbSelect id], w2⟩ := by
  simp [getTransaction, if_neg hid, hg, hv, hq]

theorem getTransaction_backfill_error (env : Env F σ) (id : String) (w w1 w2 : σ)
    (item : Option Bytes) (trx : Transaction F) (e : Err) (hid : id ≠ "")
    (hg : env.GetState storename (cacheKey id) w = (.ok item, w1))
    (hv : itemHasValue item = false)
    (hq : env.selectTransaction id w1 = (.ok trx, w2))
    (hs : (saveTransactionToCache env trx w2).1 = some e) :
    getTransaction env id w =
      ⟨httpError "Failed to cache transaction" StatusInternalServerError,
        [.getState storename (cacheKey id), .dbSelect id,
          (saveTransactionToCache env trx w2).2.1],
        (saveTransactionToCache env trx w2).2.2⟩ := by
  rcases hss : saveTransactionToCache env trx w2 with ⟨rs, c3, w3⟩
  rw [hss] at hs
  dsimp only at hs
  subst hs
  simp [getTransaction, if_neg hid, hg, hv, hq, hss]

theorem getTransaction_backfilled (env : Env F σ) (id : String) (w w1 w2 : σ)
    (item : Option Bytes) (trx : Transaction F) (hid : id ≠ "")
    (hg : env.GetState storename (cacheKey id) w = (.ok item, w1))
    (hv : itemHasValue item = false)
    (hq : env.selectTransaction id w1 = (.ok trx, w2))
    (hs : (saveTransactionToCache env trx w2).1 = none) :
    getTransaction env id w =
      ⟨⟨StatusOK, encodeBody env trx⟩,
        [.getState storename (cacheKey id), .dbSelect id,
          (saveTransactionToCache env trx w2).2.1],
        (saveTransactionToCache env trx w2).2.2⟩ := by
  rcases hss : saveTransactionToCache env trx w2 with ⟨rs, c3, w3⟩
  rw [hss] at hs
  dsimp only at hs
  subst hs
  simp [getTransaction, if_neg hid, hg, hv, hq, hss]

theorem insertCall_kind (env : Env F σ) (body : Bytes) (product : Product F) :
    (insertCall env body product).kind = .durableInsert := rfl

theorem saveTransactionToCache_kind (env : Env F σ) (t : Transaction F) (w : σ) :
    (saveTransactionToCache env t w).2.1.kind = .cacheWrite := rfl

theorem encodeBody_of_marshal (env : Env F σ) (t : Transaction F) (data : Bytes)
    (h : env.marshalTransaction t = .ok data) : encodeBody env t = .json t := by
  simp [encodeBody, h]

theorem cachePayload_of_marshal (env : Env F σ) (t : Transaction F) (data : Bytes)
    (h : env.marshalTransaction t = .ok data) : cachePayload env t = data := by
  simp [cachePayload, h]

theorem encodeBody_unmarshal (env : Env F σ) (data : Bytes) :
    encodeBody env (env.unmarshalTransaction data).1 =
      .json (env.unmarshalTransaction data).1 := by
  obtain ⟨out, h⟩ := env.unmarshal_marshals data
  exact encodeBody_of_marshal env _ out h

theorem encodeBody_eq_json (env : Env F σ) (t u : Transaction F)
    (h : encodeBody env t = .json u) : t = u ∧ ∃ data, env.marshalTransaction t = .ok data := by
  unfold encodeBody at h
  cases hm : env.marshalTransaction t with
  | error e => rw [hm] at h; cases h
  | ok data =>
    rw [hm] at h
    exact ⟨by simpa using h, data, rfl⟩

/-- Every run of `createTransaction` takes exactly one of its five paths. -/
theorem createTransaction_cases (env : Env F σ) (body : Bytes) (w : σ) :
    (∃ e, (customerStep env body w).1 = .error e) ∨
    (∃ customer e, (customerStep env body w).1 = .ok customer ∧
      (productStep env body w).1 = .error e) ∨
    (∃ customer product e w3, (customerStep env body w).1 = .ok customer ∧
      (productStep env body w).1 = .ok product ∧
      insertStep env body w product = (.error e, w3)) ∨
    (∃ customer product id createdAt w3 e, (customerStep env body w).1 = .ok customer ∧
      (productStep env body w).1 = .ok product ∧
      insertStep env body w product = (.ok (id, createdAt), w3) ∧
      (saveTransactionToCache env (persistedTxn env body product id createdAt) w3).1 = some e) ∨
    (∃ customer product id createdAt w3, (customerStep env body w).1 = .ok customer ∧
      (productStep env body w).1 = .ok product ∧
      insertStep env body w product = (.ok (id, createdAt), w3) ∧
      (saveTransactionToCache env (persistedTxn env body product id createdAt) w3).1 = none) := by
  cases hc : (customerStep env body w).1 with
  | error e => exact Or.inl ⟨e, rfl⟩
  | ok customer =>
    cases hp : (productStep env body w).1 with
    | error e => exact Or.inr (Or.inl ⟨customer, e, rfl, rfl⟩)
    | ok product =>
      rcases hi : insertStep env body w product with ⟨ri, w3⟩
      cases ri with
      | error e => exact Or.inr (Or.inr (Or.inl ⟨customer, product, e, w3, rfl, rfl, hi⟩))
      | ok r =>
        rcases r with ⟨id, createdAt⟩
        cases hs : (saveTransactionToCache env (persistedTxn env body product id createdAt) w3).1 with
        | some e =>
          exact Or.inr (Or.inr (Or.inr (Or.inl
            ⟨customer, product, id, createdAt, w3, e, rfl, rfl, hi, hs⟩)))
        | none =>
          exact Or.inr (Or.inr (Or.inr (Or.inr
            ⟨customer, product, id, createdAt, w3, rfl, rfl, hi, hs⟩)))

/-- The cache of the concrete world returns what was last set under a key. -/
theorem demoEnv_cacheReturnsLastSet : CacheReturnsLastSet demoEnv := by
  intro store key data w h
  cases hw : w.cacheUp <;> simp [demoEnv, hw] at h ⊢

end Lemmas

/-! ## The claims -/

section Claims

variable {F σ : Type}

/-- C1: for every creation request and every behaviour of the collaborators, the calls
issued by `createTransaction` form an initial segment of customer lookup, product lookup,
durable insert, cache write that stops at the first failing call.  If the customer lookup
fails the response is 400 and the only call is the customer lookup; if it succeeds and the
product lookup fails the response is 400 and the only calls are the two lookups; a durable
insert is issued only when both lookups succeeded; and if the insert fails no cache write
follows. -/
theorem createTransaction_calls_stop_at_first_failure (env : Env F σ) (body : Bytes) (w : σ) :
    (createTransaction env body w).kinds <+: creationFlow ∧
    (succeeded (customerStep env body w).1 = false →
      (createTransaction env body w).resp.status = 400 ∧
      (createTransaction env body w).kinds = [.customerLookup]) ∧
    (succeeded (customerStep env body w).1 = true →
      succeeded (productStep env body w).1 = false →
      (createTransaction env body w).resp.status = 400 ∧
      (createTransaction env body w).kinds = [.customerLookup, .productLookup]) ∧
    (CallKind.durableInsert ∈ (createTransaction env body w).kinds →
      succeeded (customerStep env body w).1 = true ∧
      succeeded (productStep env body w).1 = true) ∧
    (∀ product, succeeded (customerStep env body w).1 = true →
      (productStep env body w).1 = .ok product →
      succeeded (insertStep env body w product).1 = false →
      (createTransaction env body w).kinds =
        [.customerLookup, .productLookup, .durableInsert]) := by
  have hck := customerStep_kind env body w
  have hpk := productStep_kind env body w
  rcases createTransaction_cases env body w with
    ⟨e, hc⟩ | ⟨customer, e, hc, hp⟩ | ⟨customer, product, e, w3, hc, hp, hi⟩ |
    ⟨customer, product, id, createdAt, w3, e, hc, hp, hi, hs⟩ |
    ⟨customer, product, id, createdAt, w3, hc, hp, hi, hs⟩
  · rw [createTransaction_customer_error env body w e hc]
    simp [Outcome.kinds, hck, hc, succeeded, creationFlow, httpError, StatusBadRequest]
  · rw [createTransaction_product_error env body w customer e hc hp]
    simp [Outcome.kinds, hck, hpk, hc, hp, succeeded, creationFlow, httpError,
      StatusBadRequest]
  · rw [createTransaction_insert_error env body w customer product e w3 hc hp hi]
    simp [Outcome.kinds, hck, hpk, hc, hp, hi, succeeded, creationFlow, insertCall_kind]
  · rw [createTransaction_cache_error env body w customer product id createdAt w3 e hc hp hi hs]
    simp [Outcome.kinds, hck, hpk, hc, hp, hi, succeeded, creationFlow, insertCall_kind,
      saveTransactionToCache_kind]
  · rw [createTransaction_created env body w customer product id createdAt w3 hc hp hi hs]
    simp [Outcome.kinds, hck, hpk, hc, hp, hi, succeeded, creationFlow, insertCall_kind,
      saveTransactionToCache_kind]

/-- Witness for C1: customer `c9` is unknown, so the response is 400 and the customer
lookup is the only call. -/
theorem createTransaction_calls_stop_at_first_failure_witness :
    (createTransaction demoEnv bodyUnknownCustomer demoWorld).resp.status = 400 ∧
    (createTransaction demoEnv bodyUnknownCustomer demoWorld).kinds = [.customerLookup] :=
  (createTransaction_calls_stop_at_first_failure demoEnv bodyUnknownCustomer demoWorld).2.1
    (by decide)

/-- C2 (counterexample): 100 units of the product priced 1e308.  Both lookups, the
durable insert and the cache write succeed, but the total overflows to `+Inf`, which has no
JSON encoding: the response is 201 with no body, so it carries no Transaction. -/
theorem createTransaction_overflow_has_no_body :
    (customerStep demoEnv bodyOverflow demoWorld).1 = .ok ⟨"c1", "Ana"⟩ ∧
    (productStep demoEnv bodyOverflow demoWorld).1 =
      .ok ⟨"p2", "Ingot", .finite DemoFloat.e308⟩ ∧
    insertStep demoEnv bodyOverflow demoWorld ⟨"p2", "Ingot", .finite DemoFloat.e308⟩ =
      (.ok ("1", ⟨1000⟩), demoWorldOverflowInserted) ∧
    (saveTransactionToCache demoEnv demoTxnOverflow demoWorldOverflowInserted).1 = none ∧
    (createTransaction demoEnv bodyOverflow demoWorld).kinds = creationFlow ∧
    (createTransaction demoEnv bodyOverflow demoWorld).resp = ⟨201, .empty⟩ := by
  decide

/-- C2 (amended): when the customer lookup, the product lookup, the durable insert and the
cache write all succeed and the resulting Transaction has a JSON encoding (its totalPrice
is not an infinity or `NaN`), `createTransaction` responds 201 with a Transaction whose
totalPrice is `float64(qty) * product.Price` for the product the lookup returned, whose
customerId, productId and quantity are those of the request, and whose id and createdAt are
the values the insert returned, whatever `transaction_id`, `total_price` or `created_at`
the body carried; the values inserted are the same customerId, productId, quantity and
totalPrice. -/
theorem createTransaction_success_response (env : Env F σ) (body : Bytes) (w : σ)
    (customer : Customer) (product : Product F) (id : String) (createdAt : Time) (w3 : σ)
    (data : Bytes)
    (hc : (customerStep env body w).1 = .ok customer)
    (hp : (productStep env body w).1 = .ok product)
    (hi : env.insertTransaction (requestTxn env body).CustomerID (requestTxn env body).ProductID
      (requestTxn env body).Qty
      (env.float64.mul (env.float64.ofInt (requestTxn env body).Qty) product.Price)
      (productStep env body w).2.2 = (.ok (id, createdAt), w3))
    (henc : env.marshalTransaction ⟨id, (requestTxn env body).CustomerID,
      (requestTxn env body).ProductID, (requestTxn env body).Qty,
      env.float64.mul (env.float64.ofInt (requestTxn env body).Qty) product.Price,
      createdAt⟩ = .ok data)
    (hs : (env.SaveState "statestore" (cacheKey id) data w3).1 = none) :
    ∃ t : Transaction F,
      (createTransaction env body w).resp = ⟨201, .json t⟩ ∧
      t.TotalPrice = env.float64.mul (env.float64.ofInt (requestTxn env body).Qty) product.Price ∧
      t.CustomerID = (requestTxn env body).CustomerID ∧
      t.ProductID = (requestTxn env body).ProductID ∧
      t.Qty = (requestTxn env body).Qty ∧
      t.ID = id ∧ t.CreatedAt = createdAt ∧
      Call.dbInsert t.CustomerID t.ProductID t.Qty t.TotalPrice ∈
        (createTransaction env body w).calls := by
  have henc' : env.marshalTransaction (persistedTxn env body product id createdAt) = .ok data :=
    henc
  have hs' : (saveTransactionToCache env (persistedTxn env body product id createdAt) w3).1
      = none := by
    rw [saveTransactionToCache_eq, cachePayload_of_marshal env _ data henc']
    exact hs
  refine ⟨persistedTxn env body product id createdAt, ?_, rfl, rfl, rfl, rfl, rfl, rfl, ?_⟩
  · rw [createTransaction_created env body w customer product id createdAt w3 hc hp hi hs',
      encodeBody_of_marshal env _ data henc']
    rfl
  · rw [createTransaction_created env body w customer product id createdAt w3 hc hp hi hs']
    simp [insertCall, persistedTxn, pricedTxn]

/-- Witness for C2 (amended): the body supplies `transaction_id` 77, `total_price` 999 and
a `created_at`; the response still carries id 1, total 3 * 10 = 30 and the time of the
insert. -/
theorem createTransaction_success_response_witness :
    ∃ t : Transaction DemoFloat,
      (createTransaction demoEnv bodyOverride demoWorld).resp = ⟨201, .json t⟩ ∧
      t.TotalPrice = .finite 30 ∧ t.CustomerID = "c1" ∧ t.ProductID = "p1" ∧ t.Qty = 3 ∧
      t.ID = "1" ∧ t.CreatedAt = ⟨1000⟩ ∧
      Call.dbInsert t.CustomerID t.ProductID t.Qty t.TotalPrice ∈
        (createTransaction demoEnv bodyOverride demoWorld).calls :=
  createTransaction_success_response demoEnv bodyOverride demoWorld ⟨"c1", "Ana"⟩
    ⟨"p1", "Pen", .finite 10⟩ "1" ⟨1000⟩ demoWorldInserted demoPayload (by decide) (by decide)
    (by decide) (by decide) (by decide)

/-- C3: create-then-lookup round trip.  If `createTransaction` responds 201 with the
Transaction `t`, then `getTransaction` for `t.ID`, run in the world the creation left,
responds 200 with `t`, reading only the cache; the key the creation wrote `t` under is the
key the lookup reads.  Assumed: the id the store assigned is not empty (the route
`/transaction/{id}` has no empty id), the JSON encoding of `t` decodes back to `t`, and the
cache returns what was last set under a key. -/
theorem create_then_get_round_trip (env : Env F σ) (body : Bytes) (w : σ) (t : Transaction F)
    (hcreate : (createTransaction env body w).resp = ⟨201, .json t⟩)
    (hid : t.ID ≠ "")
    (hjson : JsonFaithful env t)
    (hcache : CacheReturnsLastSet env) :
    (getTransaction env t.ID (createTransaction env body w).world).resp = ⟨200, .json t⟩ ∧
    (getTransaction env t.ID (createTransaction env body w).world).calls =
      [.getState "statestore" (cacheKey t.ID)] ∧
    (createTransaction env body w).calls.getLast? =
      some (.saveState "statestore" (cacheKey t.ID) (cachePayload env t)) := by
  obtain ⟨data, hdata, hlen, hback⟩ := hjson
  rcases createTransaction_cases env body w with
    ⟨e, hc⟩ | ⟨customer, e, hc, hp⟩ | ⟨customer, product, e, w3, hc, hp, hi⟩ |
    ⟨customer, product, id, createdAt, w3, e, hc, hp, hi, hs⟩ |
    ⟨customer, product, id, createdAt, w3, hc, hp, hi, hs⟩
  · rw [createTransaction_customer_error env body w e hc] at hcreate
    have h := congrArg Response.status hcreate
    simp [httpError, StatusBadRequest] at h
  · rw [createTransaction_product_error env body w customer e hc hp] at hcreate
    have h := congrArg Response.status hcreate
    simp [httpError, StatusBadRequest] at h
  · rw [createTransaction_insert_error env body w customer product e w3 hc hp hi] at hcreate
    have h := congrArg Response.status hcreate
    simp [httpError, StatusInternalServerError] at h
  · rw [createTransaction_cache_error env body w customer product id createdAt w3 e hc hp hi hs]
      at hcreate
    have h := congrArg Response.status hcreate
    simp [httpError, StatusInternalServerError] at h
  · rw [createTransaction_created env body w customer product id createdAt w3 hc hp hi hs]
      at hcreate ⊢
    have ht : persistedTxn env body product id createdAt = t := by
      have h := congrArg Response.body hcreate
      exact (encodeBody_eq_json env _ t h).1
    rw [ht] at hs ⊢
    rw [saveTransactionToCache_eq] at hs ⊢
    dsimp only at hs ⊢
    have hpay : cachePayload env t = data := cachePayload_of_marshal env t data hdata
    rw [hpay] at hs ⊢
    have hg := hcache "statestore" (cacheKey t.ID) data w3 hs
    have hv : itemHasValue (some data) = true := by
      simp [itemHasValue, hlen]
    have hget := getTransaction_cache_hit env t.ID _ _ _ hid hg hv
    rw [hget]
    refine ⟨?_, rfl, by simp⟩
    have hbody : encodeBody env (env.unmarshalTransaction data).1 = .json t := by
      rw [encodeBody_unmarshal, hback]
    simp [StatusOK, hbody]

/-- Witness for C3: the order for customer `c1` and product `p1` is created with id 1
and the lookup of id 1 in the world left behind returns it from the cache. -/
theorem create_then_get_round_trip_witness :
    (createTransaction demoEnv bodyOrder demoWorld).resp = ⟨201, .json demoTxn⟩ ∧
    (getTransaction demoEnv "1" (createTransaction demoEnv bodyOrder demoWorld).world).resp =
      ⟨200, .json demoTxn⟩ ∧
    (getTransaction demoEnv "1" (createTransaction demoEnv bodyOrder demoWorld).world).calls =
      [.getState "statestore" (cacheKey "1")] :=
  ⟨by decide,
    (create_then_get_round_trip demoEnv bodyOrder demoWorld demoTxn (by decide) (by decide)
      ⟨demoPayload, by decide, by decide, by decide⟩
      demoEnv_cacheReturnsLastSet).1,
    (create_then_get_round_trip demoEnv bodyOrder demoWorld demoTxn (by decide) (by decide)
      ⟨demoPayload, by decide, by decide, by decide⟩
      demoEnv_cacheReturnsLastSet).2.1⟩

/-- C4 (the code differs): the key `saveTransactionToCache` writes under and the key
`getTransaction` reads are the same string, but it is not `"transaction-"` followed by the
id: `fmt.Sprintf("transaction-%d", id)` with a string `id` yields
`transaction-%!d(string=<id>)`.  Shown for every id, and evaluated at id `1`. -/
theorem cacheKey_is_not_transaction_dash_id :
    (∀ id : String, cacheKey id = "transaction-%!d(string=" ++ id ++ ")" ∧
      cacheKey id ≠ "transaction-" ++ id) ∧
    (saveTransactionToCache demoEnv demoTxn demoWorld).2.1 =
      .saveState "statestore" "transaction-%!d(string=1)" demoPayload ∧
    (getTransaction demoEnv "1" demoWorld).calls.head? =
      some (.getState "statestore" "transaction-%!d(string=1)") := by
  refine ⟨fun id => ⟨?_, ?_⟩, by decide, by decide⟩
  · have hlit : ("transaction-%!d(string=" : String) = "transaction-" ++ "%!d(string=" := by
      decide
    rw [hlit]
    simp only [cacheKey, sprintfDString, String.append_assoc]
  · intro h
    have hl := congrArg String.length h
    simp [cacheKey, sprintfDString, String.length_append] at hl
    have h1 : ("transaction-" : String).length = 12 := by decide
    have h2 : ("%!d(string=" : String).length = 11 := by decide
    have h3 : (")" : String).length = 1 := by decide
    omega

/-- C5 (counterexample): quantity -2 with a known customer and product is accepted:
the response is 201, the row is inserted with quantity -2 and total -20, and the cache
is written. -/
theorem createTransaction_accepts_negative_qty :
    (requestTxn demoEnv bodyNegativeQty).Qty ≤ 0 ∧
    (createTransaction demoEnv bodyNegativeQty demoWorld).resp =
      ⟨201, .json demoTxnNegativeQty⟩ ∧
    Call.dbInsert "c1" "p1" (-2) (.finite (-20)) ∈
      (createTransaction demoEnv bodyNegativeQty demoWorld).calls ∧
    CallKind.cacheWrite ∈ (createTransaction demoEnv bodyNegativeQty demoWorld).kinds := by
  decide

/-- C5 (amended): for every creation request whose quantity is zero or negative,
`createTransaction` makes no quantity check.  It responds 400 and issues no durable
insert and no cache write when the customer lookup or the product lookup fails; when both
lookups, the durable insert and the cache write succeed and the resulting Transaction has
a JSON encoding, it responds 201 with a Transaction carrying that quantity, after
inserting it. -/
theorem createTransaction_nonpositive_qty (env : Env F σ) (body : Bytes) (w : σ)
    (hq : (requestTxn env body).Qty ≤ 0) :
    (succeeded (customerStep env body w).1 = false ∨
        succeeded (productStep env body w).1 = false →
      (createTransaction env body w).resp.status = 400 ∧
      CallKind.durableInsert ∉ (createTransaction env body w).kinds ∧
      CallKind.cacheWrite ∉ (createTransaction env body w).kinds) ∧
    (∀ customer product id createdAt w3 data,
      (customerStep env body w).1 = .ok customer →
      (productStep env body w).1 = .ok product →
      insertStep env body w product = (.ok (id, createdAt), w3) →
      env.marshalTransaction (persistedTxn env body product id createdAt) = .ok data →
      (env.SaveState "statestore" (cacheKey id) data w3).1 = none →
      (createTransaction env body w).resp =
        ⟨201, .json (persistedTxn env body product id createdAt)⟩ ∧
      (persistedTxn env body product id createdAt).Qty ≤ 0 ∧
      Call.dbInsert (requestTxn env body).CustomerID (requestTxn env body).ProductID
        (requestTxn env body).Qty
        (env.float64.mul (env.float64.ofInt (requestTxn env body).Qty) product.Price) ∈
        (createTransaction env body w).calls) := by
  have hck := customerStep_kind env body w
  have hpk := productStep_kind env body w
  refine ⟨?_, ?_⟩
  · intro hfail
    rcases createTransaction_cases env body w with
      ⟨e, hc⟩ | ⟨customer, e, hc, hp⟩ | ⟨customer, product, e, w3, hc, hp, hi⟩ |
      ⟨customer, product, id, createdAt, w3, e, hc, hp, hi, hs⟩ |
      ⟨customer, product, id, createdAt, w3, hc, hp, hi, hs⟩
    · rw [createTransaction_customer_error env body w e hc]
      simp [Outcome.kinds, hck, httpError, StatusBadRequest]
    · rw [createTransaction_product_error env body w customer e hc hp]
      simp [Outcome.kinds, hck, hpk, httpError, StatusBadRequest]
    · simp [hc, hp, succeeded] at hfail
    · simp [hc, hp, succeeded] at hfail
    · simp [hc, hp, succeeded] at hfail
  · intro customer product id createdAt w3 data hc hp hi henc hs
    have hs' : (saveTransactionToCache env (persistedTxn env body product id createdAt) w3).1
        = none := by
      rw [saveTransactionToCache_eq, cachePayload_of_marshal env _ data henc]
      exact hs
    rw [createTransaction_created env body w customer product id createdAt w3 hc hp hi hs',
      encodeBody_of_marshal env _ data henc]
    refine ⟨rfl, hq, ?_⟩
    simp [insertCall, pricedTxn]

/-- Witness for C5 (amended): the request with quantity -2 for the known customer and
product is answered 201 with the persisted row. -/
theorem createTransaction_nonpositive_qty_witness :
    (requestTxn demoEnv bodyNegativeQty).Qty ≤ 0 ∧
    (createTransaction demoEnv bodyNegativeQty demoWorld).resp =
      ⟨201, .json (persistedTxn demoEnv bodyNegativeQty ⟨"p1", "Pen", .finite 10⟩ "1" ⟨1000⟩)⟩ :=
  ⟨by decide,
    ((createTransaction_nonpositive_qty demoEnv bodyNegativeQty demoWorld (by decide)).2
      ⟨"c1", "Ana"⟩ ⟨"p1", "Pen", .finite 10⟩ "1" ⟨1000⟩
      { demoWorld with rows := [demoTxnNegativeQty] } demoPayloadNegativeQty
      (by decide) (by decide) (by decide) (by decide) (by decide)).1⟩

/-- C6 (counterexample): the body `{"customer_id":"c1","product_id":"p1"}` omits `qty`;
`json.Unmarshal` leaves `Qty` at 0 and reports no error, and the request is answered 201
after a durable insert with quantity 0. -/
theorem createTransaction_accepts_missing_qty :
    demoEnv.unmarshalTransaction bodyNoQty = (⟨"", "c1", "p1", 0, .finite 0, ⟨0⟩⟩, none) ∧
    (createTransaction demoEnv bodyNoQty demoWorld).resp = ⟨201, .json demoTxnNoQty⟩ ∧
    Call.dbInsert "c1" "p1" 0 (.finite 0) ∈
      (createTransaction demoEnv bodyNoQty demoWorld).calls := by
  decide

/-- C6 (amended): for every creation request whose body is valid JSON for a transaction
but omits customerId, productId or quantity (the omitted field keeps its zero value, the
empty string or 0), `createTransaction` makes no required-field check: it responds 400
and issues no durable insert exactly when the customer lookup or the product lookup fails,
and when both lookups succeed the durable insert is issued. -/
theorem createTransaction_missing_field (env : Env F σ) (body : Bytes) (w : σ)
    (_hvalid : (env.unmarshalTransaction body).2 = none)
    (_hmiss : (requestTxn env body).CustomerID = "" ∨ (requestTxn env body).ProductID = "" ∨
      (requestTxn env body).Qty = 0) :
    ((succeeded (customerStep env body w).1 = false ∨
        succeeded (productStep env body w).1 = false) ↔
      (createTransaction env body w).resp.status = 400) ∧
    ((succeeded (customerStep env body w).1 = false ∨
        succeeded (productStep env body w).1 = false) ↔
      CallKind.durableInsert ∉ (createTransaction env body w).kinds) := by
  have hck := customerStep_kind env body w
  have hpk := productStep_kind env body w
  rcases createTransaction_cases env body w with
    ⟨e, hc⟩ | ⟨customer, e, hc, hp⟩ | ⟨customer, product, e, w3, hc, hp, hi⟩ |
    ⟨customer, product, id, createdAt, w3, e, hc, hp, hi, hs⟩ |
    ⟨customer, product, id, createdAt, w3, hc, hp, hi, hs⟩
  · rw [createTransaction_customer_error env body w e hc]
    simp [Outcome.kinds, hck, hc, succeeded, httpError, StatusBadRequest]
  · rw [createTransaction_product_error env body w customer e hc hp]
    simp [Outcome.kinds, hck, hpk, hc, hp, succeeded, httpError, StatusBadRequest]
  · rw [createTransaction_insert_error env body w customer product e w3 hc hp hi]
    simp [Outcome.kinds, hck, hpk, hc, hp, succeeded, httpError, StatusInternalServerError,
      insertCall_kind]
  · rw [createTransaction_cache_error env body w customer product id createdAt w3 e hc hp hi hs]
    simp [Outcome.kinds, hck, hpk, hc, hp, succeeded, httpError, StatusInternalServerError,
      insertCall_kind, saveTransactionToCache_kind]
  · rw [createTransaction_created env body w customer product id createdAt w3 hc hp hi hs]
    simp [Outcome.kinds, hck, hpk, hc, hp, succeeded, StatusCreated, insertCall_kind,
      saveTransactionToCache_kind]

/-- Witness for C6 (amended): the body without `qty` decodes without error to quantity
0; both lookups succeed, so the response is not 400 and the insert is issued. -/
theorem createTransaction_missing_field_witness :
    (demoEnv.unmarshalTransaction bodyNoQty).2 = none ∧
    (requestTxn demoEnv bodyNoQty).Qty = 0 ∧
    ((succeeded (customerStep demoEnv bodyNoQty demoWorld).1 = false ∨
        succeeded (productStep demoEnv bodyNoQty demoWorld).1 = false) ↔
      (createTransaction demoEnv bodyNoQty demoWorld).resp.status = 400) :=
  ⟨by decide, by decide,
    (createTransaction_missing_field demoEnv bodyNoQty demoWorld (by decide)
      (Or.inr (Or.inr (by decide)))).1⟩

/-- C7: for every non-empty id for which the cache get succeeds with a non-empty payload,
`getTransaction` responds 200 with the Transaction that payload deserialises to, and its
only call is the cache get: no durable-store read and no cache write. -/
theorem getTransaction_cache_hit_response (env : Env F σ) (id : String) (w w1 : σ)
    (value : Bytes) (hid : id ≠ "")
    (hg : env.GetState "statestore" (cacheKey id) w = (.ok (some value), w1))
    (hv : 0 < value.length) :
    (getTransaction env id w).resp = ⟨200, .json (env.unmarshalTransaction value).1⟩ ∧
    (getTransaction env id w).calls = [.getState "statestore" (cacheKey id)] ∧
    CallKind.durableRead ∉ (getTransaction env id w).kinds ∧
    CallKind.cacheWrite ∉ (getTransaction env id w).kinds := by
  have hitem : itemHasValue (some value) = true := by simp [itemHasValue, hv]
  rw [getTransaction_cache_hit env id w w1 (some value) hid hg hitem]
  have hbody : encodeBody env (env.unmarshalTransaction value).1 =
      .json (env.unmarshalTransaction value).1 := encodeBody_unmarshal env value
  simp [Outcome.kinds, Call.kind, StatusOK, storename, hbody]

/-- Witness for C7: id 1 is cached in `demoWorldCached`. -/
theorem getTransaction_cache_hit_response_witness :
    (getTransaction demoEnv "1" demoWorldCached).resp = ⟨200, .json demoTxn⟩ ∧
    (getTransaction demoEnv "1" demoWorldCached).calls =
      [.getState "statestore" (cacheKey "1")] :=
  ⟨(getTransaction_cache_hit_response demoEnv "1" demoWorldCached demoWorldCached demoPayload
      (by decide) (by decide) (by decide)).1,
    (getTransaction_cache_hit_response demoEnv "1" demoWorldCached demoWorldCached demoPayload
      (by decide) (by decide) (by decide)).2.1⟩

/-- C8: fallback with backfill.  For a non-empty id whose cache entry is absent or empty:
if the durable store returns the row of that id (and the backfill write succeeds),
`getTransaction` reads the row, writes its serialisation to the cache under the key of
that id, and responds 200 with the row; a second `getTransaction` for the same id in the
resulting world responds 200 with the same Transaction without a durable-store read.  If
the durable store has no row, the response is 404 and no cache write is issued.  Assumed
for the second lookup: the JSON encoding of the row decodes back to it, and the cache
returns what was last set under a key. -/
theorem getTransaction_fallback_backfill (env : Env F σ) (id : String) (w w1 : σ)
    (item : Option Bytes) (hid : id ≠ "")
    (hg : env.GetState "statestore" (cacheKey id) w = (.ok item, w1))
    (hv : itemHasValue item = false)
    (hcache : CacheReturnsLastSet env) :
    (∀ row w2, env.selectTransaction id w1 = (.ok row, w2) → row.ID = id →
      JsonFaithful env row →
      (env.SaveState "statestore" (cacheKey id) (cachePayload env row) w2).1 = none →
      (getTransaction env id w).resp = ⟨200, .json row⟩ ∧
      (getTransaction env id w).calls =
        [.getState "statestore" (cacheKey id), .dbSelect id,
          .saveState "statestore" (cacheKey id) (cachePayload env row)] ∧
      (getTransaction env id (getTransaction env id w).world).resp = ⟨200, .json row⟩ ∧
      CallKind.durableRead ∉ (getTransaction env id (getTransaction env id w).world).kinds) ∧
    (∀ e w2, env.selectTransaction id w1 = (.error e, w2) →
      (getTransaction env id w).resp.status = 404 ∧
      CallKind.cacheWrite ∉ (getTransaction env id w).kinds) := by
  refine ⟨?_, ?_⟩
  · intro row w2 hq hrow hjson hs
    subst hrow
    have hs' : (saveTransactionToCache env row w2).1 = none := hs
    rw [getTransaction_backfilled env row.ID w w1 w2 item row hid hg hv hq hs']
    rw [saveTransactionToCache_eq]
    dsimp only
    obtain ⟨data, hdata, hlen, hback⟩ := hjson
    have hpay : cachePayload env row = data := cachePayload_of_marshal env row data hdata
    have hrowBody : encodeBody env row = .json row := encodeBody_of_marshal env row data hdata
    rw [hpay] at hs ⊢
    have hg2 := hcache "statestore" (cacheKey row.ID) data w2 hs
    have hv2 : itemHasValue (some data) = true := by
      simp [itemHasValue, hlen]
    rw [getTransaction_cache_hit env row.ID _ _ _ hid hg2 hv2]
    have hbody : encodeBody env (env.unmarshalTransaction data).1 = .json row := by
      rw [encodeBody_unmarshal, hback]
    simp [Outcome.kinds, Call.kind, StatusOK, storename, hbody, hrowBody]
  · intro e w2 hq
    rw [getTransaction_select_error env id w w1 w2 item e hid hg hv hq]
    simp [Outcome.kinds, Call.kind, httpError, StatusNotFound]

/-- Witness for C8: row 1 is in the table of `demoWorldStored` but not in its cache; the
lookup returns it, leaves it cached, and a second lookup reads only the cache. -/
theorem getTransaction_fallback_backfill_witness :
    (getTransaction demoEnv "1" demoWorldStored).resp = ⟨200, .json demoTxn⟩ ∧
    (getTransaction demoEnv "1" demoWorldStored).calls =
      [.getState "statestore" (cacheKey "1"), .dbSelect "1",
        .saveState "statestore" (cacheKey "1") demoPayload] ∧
    (getTransaction demoEnv "1" (getTransaction demoEnv "1" demoWorldStored).world).resp =
      ⟨200, .json demoTxn⟩ ∧
    CallKind.durableRead ∉
      (getTransaction demoEnv "1" (getTransaction demoEnv "1" demoWorldStored).world).kinds :=
  (getTransaction_fallback_backfill demoEnv "1" demoWorldStored demoWorldStored none
    (by decide) (by decide) (by decide) demoEnv_cacheReturnsLastSet).1
    demoTxn demoWorldStored (by decide) (by decide)
    ⟨demoPayload, by decide, by decide, by decide⟩ (by decide)

/-- C9: when both lookups and the durable insert succeed but the cache write fails,
`createTransaction` responds 500 (not 201); its calls are exactly the four calls of the
creation flow, the failed cache write being the last, so nothing undoes the insert and the
world is the one the cache write left.  Likewise, when the durable fallback read succeeds
but the backfill cache write fails, `getTransaction` responds 500. -/
theorem cache_write_failure_responds_500 (env : Env F σ) :
    (∀ body w customer product id createdAt w3 e,
      (customerStep env body w).1 = .ok customer →
      (productStep env body w).1 = .ok product →
      insertStep env body w product = (.ok (id, createdAt), w3) →
      (env.SaveState "statestore" (cacheKey id)
        (cachePayload env (persistedTxn env body product id createdAt)) w3).1 = some e →
      (createTransaction env body w).resp.status = 500 ∧
      (createTransaction env body w).kinds = creationFlow ∧
      (createTransaction env body w).calls.getLast? =
        some (.saveState "statestore" (cacheKey id)
          (cachePayload env (persistedTxn env body product id createdAt))) ∧
      (createTransaction env body w).world =
        (env.SaveState "statestore" (cacheKey id)
          (cachePayload env (persistedTxn env body product id createdAt)) w3).2) ∧
    (∀ id w w1 w2 item row e, id ≠ "" →
      env.GetState "statestore" (cacheKey id) w = (.ok item, w1) →
      itemHasValue item = false →
      env.selectTransaction id w1 = (.ok row, w2) →
      (env.SaveState "statestore" (cacheKey row.ID) (cachePayload env row) w2).1 = some e →
      (getTransaction env id w).resp.status = 500) := by
  refine ⟨?_, ?_⟩
  · intro body w customer product id createdAt w3 e hc hp hi hs
    have hs' : (saveTransactionToCache env (persistedTxn env body product id createdAt) w3).1
        = some e := hs
    rw [createTransaction_cache_error env body w customer product id createdAt w3 e hc hp hi hs']
    have hck := customerStep_kind env body w
    have hpk := productStep_kind env body w
    refine ⟨rfl, ?_, ?_, rfl⟩
    · simp [Outcome.kinds, hck, hpk, creationFlow, insertCall_kind,
        saveTransactionToCache_kind]
    · simp [saveTransactionToCache_call]
      rfl
  · intro id w w1 w2 item row e hid hg hv hq hs
    have hs' : (saveTransactionToCache env row w2).1 = some e := hs
    rw [getTransaction_backfill_error env id w w1 w2 item row e hid hg hv hq hs']
    rfl

/-- Witness for C9: with the cache store unreachable the order is inserted, the response
is 500, and the inserted row is still in the table afterwards. -/
theorem cache_write_failure_responds_500_witness :
    (createTransaction demoEnv bodyOrder demoWorldCacheDown).resp.status = 500 ∧
    (createTransaction demoEnv bodyOrder demoWorldCacheDown).kinds = creationFlow ∧
    demoTxn ∈ (createTransaction demoEnv bodyOrder demoWorldCacheDown).world.rows :=
  ⟨((cache_write_failure_responds_500 demoEnv).1 bodyOrder demoWorldCacheDown ⟨"c1", "Ana"⟩
      ⟨"p1", "Pen", .finite 10⟩ "1" ⟨1000⟩ { demoWorldCacheDown with rows := [demoTxn] }
      "connection refused" (by decide) (by decide) (by decide) (by decide)).1,
    ((cache_write_failure_responds_500 demoEnv).1 bodyOrder demoWorldCacheDown ⟨"c1", "Ana"⟩
      ⟨"p1", "Pen", .finite 10⟩ "1" ⟨1000⟩ { demoWorldCacheDown with rows := [demoTxn] }
      "connection refused" (by decide) (by decide) (by decide) (by decide)).2.1,
    by decide⟩

/-- C10 (the code differs): a lookup whose cache get fails is answered 404, not 5xx, and
so is a lookup whose durable point query fails because the database is unreachable.
Evaluated for id 1 with the cache store down, and with the database down. -/
theorem getTransaction_store_failure_responds_404 :
    (getTransaction demoEnv "1" demoWorldCacheDown).resp =
      ⟨404, .text "Transaction not foundconnection refused\n"⟩ ∧
    (getTransaction demoEnv "1" demoWorldCacheDown).calls =
      [.getState "statestore" (cacheKey "1")] ∧
    (getTransaction demoEnv "1" demoWorldDbDown).resp = ⟨404, .text "Product not found\n"⟩ ∧
    (getTransaction demoEnv "1" demoWorldDbDown).calls =
      [.getState "statestore" (cacheKey "1"), .dbSelect "1"] ∧
    (createTransaction demoEnv bodyOrder demoWorldDbDown).resp.status = 500 ∧
    (createTransaction demoEnv bodyOrder demoWorldCacheDown).resp.status = 500 := by
  decide

end Claims


end DaprGo
